import Mathlib

/-
Verification of the core of the wa_prod repository: the WhatsApp connection
lifecycle manager and the message delivery / status-tracking pipeline.

The JavaScript source is embedded shallowly:
* database tables become lists of row structures, `UPDATE` statements become
  `List.map` over the rows, and `affectedRows` for an `UPDATE` counts
  *matched* rows (the repository connects through mysql2/promise with no
  `flags` option, and mysql2's default connection flags include
  `FOUND_ROWS`), modelled as an explicit `List.any`/`find?` check on the
  `WHERE` clause alone;
* the in-memory `instances` registry (a plain JS object) becomes a function
  `String → Option InstanceEntry`;
* the transport (`sock.sendMessage`) becomes an oracle `Nat → SendOutcome`
  giving the outcome of each successive call;
* timestamps (`NOW()`, `new Date()`) become explicit `now` parameters.

Namespaces follow the source files:
* `UpdateStatus`  — src/controllers/updateStatus.js  (updateStatusmain.js)
* `Scheduler`     — the two scheduler variants (messageScheduler.js files)
* `Qrcode`        — src/controllers/qrcode.js
* `Messages`      — src/controllers/messages.js
-/

/-- The valid values of the `media_messages.message_status` ENUM column,
as listed in `validMessageStatus` in messages.js and
`Object.values(MESSAGE_STATUS)` in updateStatus.js. -/
def validMessageStatus : List String := ["sent", "delivered", "read", "failed", "pending"]

namespace UpdateStatus

/-- A row of the `media_messages` table, restricted to the columns read or
written by the status-tracking code of updateStatus.js. -/
structure MsgRow where
  id : Nat
  instance_id : String
  whatsapp_message_id : Option String
  message_status : String
  deriving DecidableEq, Repr

/-- A raw transport status code, as found in `update.update.status` of a
`messages.update` event: either a string (e.g. `'PENDING'`) or an integer. -/
inductive RawStatusCode where
  | str (s : String)
  | int (n : Int)
  deriving DecidableEq, Repr

/-- `getDatabaseId` of updateStatus.js: look up the internal row id by
`(instance_id, whatsapp_message_id)`; `found = false` becomes `none`. -/
def getDatabaseId (db : List MsgRow) (instanceId messageId : String) : Option Nat :=
  (db.find? fun r => r.instance_id == instanceId && r.whatsapp_message_id == some messageId).map
    (fun r => r.id)

/-- The `switch (update.update.status)` of `setupMessageStatusTracking`:
`'PENDING'`/1 → pending, 3 → delivered, 4 → read, -1 → failed,
default → sent. -/
def mapStatusCode : RawStatusCode → String
  | .str s => if s = "PENDING" then "pending" else "sent"
  | .int n =>
      if n = 1 then "pending"
      else if n = 3 then "delivered"
      else if n = 4 then "read"
      else if n = -1 then "failed"
      else "sent"

/-- `updateMessageStatusInDB` of updateStatus.js: an invalid status is
coerced to `'sent'` (with a warning), then
`UPDATE media_messages SET message_status = ? WHERE id = ?` is executed.
There is no guard on the previous status. -/
def updateMessageStatusInDB (db : List MsgRow) (messageId : Nat) (newStatus : String) :
    List MsgRow :=
  let v := if validMessageStatus.contains newStatus then newStatus else "sent"
  db.map fun r => if r.id == messageId then { r with message_status := v } else r

/-- One iteration of the `messages.update` handler of
`setupMessageStatusTracking`, for an update carrying a status code:
look up the row by `(instanceId, messageId)`; if not found, log and
`continue` (no state change); else write the mapped status. -/
def onStatusEvent (db : List MsgRow) (instanceId messageId : String) (raw : RawStatusCode) :
    List MsgRow :=
  match getDatabaseId db instanceId messageId with
  | none => db
  | some dbId => updateMessageStatusInDB db dbId (mapStatusCode raw)

theorem mapStatusCode_valid (raw : RawStatusCode) :
    validMessageStatus.contains (mapStatusCode raw) = true := by
  cases raw with
  | str s =>
      simp only [mapStatusCode]
      split <;> decide
  | int n =>
      simp only [mapStatusCode]
      split
      · decide
      · split
        · decide
        · split
          · decide
          · split <;> decide

/-- Every row of an updated table that carries the updated id holds the new
status: the `UPDATE` is unconditional. -/
theorem updated_row_status (db : List MsgRow) (d : Nat) (v : String) :
    ∀ r ∈ db.map (fun r0 => if r0.id == d then { r0 with message_status := v } else r0),
      r.id = d → r.message_status = v := by
  intro r hr hrid
  rcases List.mem_map.mp hr with ⟨r0, _, hf⟩
  by_cases hb : r0.id = d
  · rw [← hf, if_pos (by simp [hb])]
  · have hido : r.id = r0.id := by
      rw [← hf]; split <;> rfl
    rw [hido] at hrid
    exact absurd hrid hb

end UpdateStatus

namespace UpdateStatus

/-- Claim C1 (counterexample): the status-tracking handler is not monotonic.
A message whose status is `sent` is moved back to `pending` by a later
receipt event with raw code 1, and a `failed` message is moved to
`delivered` by a later event with code 3: `failed` is not terminal. -/
theorem C1_regression_counterexample :
    onStatusEvent [⟨1, "tenant", some "wamid", "sent"⟩] "tenant" "wamid" (.int 1)
        = [⟨1, "tenant", some "wamid", "pending"⟩]
    ∧ onStatusEvent [⟨1, "tenant", some "wamid", "failed"⟩] "tenant" "wamid" (.int 3)
        = [⟨1, "tenant", some "wamid", "delivered"⟩] := ⟨rfl, rfl⟩

/-- Claim C1 (amended): the handler applies the mapped status
unconditionally. Whenever the lookup succeeds, the tracked row ends with
exactly the status the raw code maps to, whatever its previous status was:
an event with code 1 or `'PENDING'` regresses any message to `pending`, and
a `failed` status is overwritten by any later event. -/
theorem C1_unconditional_overwrite (db : List MsgRow) (iid mid : String)
    (raw : RawStatusCode) (dbId : Nat)
    (h : getDatabaseId db iid mid = some dbId) :
    ∀ r ∈ onStatusEvent db iid mid raw, r.id = dbId →
      r.message_status = mapStatusCode raw := by
  intro r hr hrid
  unfold onStatusEvent at hr
  rw [h] at hr
  unfold updateMessageStatusInDB at hr
  rw [if_pos (mapStatusCode_valid raw)] at hr
  exact updated_row_status db dbId (mapStatusCode raw) r hr hrid

/-- Witness for C1 (amended) at a concrete table and event. -/
theorem C1_unconditional_overwrite_witness :
    getDatabaseId [⟨1, "tenant", some "wamid", "sent"⟩] "tenant" "wamid" = some 1
    ∧ (⟨1, "tenant", some "wamid", "pending"⟩ : MsgRow).message_status
        = mapStatusCode (.int 1) :=
  ⟨rfl, C1_unconditional_overwrite [⟨1, "tenant", some "wamid", "sent"⟩] "tenant" "wamid"
    (.int 1) 1 rfl ⟨1, "tenant", some "wamid", "pending"⟩ (by decide) rfl⟩

/-- Claim C3: the receipt reconciliation handler maps codes
1/`'PENDING'` → pending, 3 → delivered, 4 → read, -1 → failed, any other
code → sent; and when no stored message matches the lookup key the event is
dropped without modifying the table. -/
theorem C3_status_mapping (n : Int) (s : String)
    (h1 : n ≠ 1) (h3 : n ≠ 3) (h4 : n ≠ 4) (hm : n ≠ -1) (hs : s ≠ "PENDING")
    (db : List MsgRow) (iid mid : String) (raw : RawStatusCode)
    (hnf : getDatabaseId db iid mid = none) :
    mapStatusCode (.str "PENDING") = "pending"
    ∧ mapStatusCode (.int 1) = "pending"
    ∧ mapStatusCode (.int 3) = "delivered"
    ∧ mapStatusCode (.int 4) = "read"
    ∧ mapStatusCode (.int (-1)) = "failed"
    ∧ mapStatusCode (.int n) = "sent"
    ∧ mapStatusCode (.str s) = "sent"
    ∧ onStatusEvent db iid mid raw = db := by
  refine ⟨rfl, rfl, rfl, rfl, rfl, ?_, ?_, ?_⟩
  · simp [mapStatusCode, h1, h3, h4, hm]
  · simp [mapStatusCode, hs]
  · unfold onStatusEvent
    rw [hnf]

/-- Witness for C3 at code 99, unknown string code, and an empty table. -/
theorem C3_status_mapping_witness :
    mapStatusCode (.int 99) = "sent"
    ∧ onStatusEvent [] "tenant" "wamid" (.int 99) = [] := by
  have h := C3_status_mapping 99 "READ" (by decide) (by decide) (by decide) (by decide)
    (by decide) [] "tenant" "wamid" (.int 99) rfl
  exact ⟨h.2.2.2.2.2.1, h.2.2.2.2.2.2.2⟩

end UpdateStatus

namespace Scheduler

/-- A row of `media_messages` as selected by the scheduler queries
(`getPendingScheduledMessages`): id, tenant, schedule time (nullable) and
status. -/
structure SchedRow where
  id : Nat
  instance_id : String
  schedule_time : Option Int
  message_status : String
  deriving DecidableEq, Repr

/-- The `WHERE` clause `message_status = 'pending' AND schedule_time <= NOW()`.
In SQL a `NULL` schedule_time fails the comparison, so rows without a
schedule time are never selected (the second variant adds an explicit
`schedule_time IS NOT NULL`, which is redundant). -/
def dueRow (now : Int) (r : SchedRow) : Bool :=
  r.message_status == "pending" &&
    (match r.schedule_time with
     | some t => decide (t ≤ now)
     | none => false)

/-- The sort key of `ORDER BY schedule_time ASC` (every selected row has a
non-null schedule_time, so the default is never used on selected rows). -/
def timeKey (r : SchedRow) : Int := r.schedule_time.getD 0

/-- The ordering relation of `ORDER BY schedule_time ASC`. -/
def timeLe (a b : SchedRow) : Prop := timeKey a ≤ timeKey b

instance : DecidableRel timeLe := fun a b =>
  (inferInstance : Decidable (timeKey a ≤ timeKey b))

instance : IsTotal SchedRow timeLe := ⟨fun a b => Int.le_total (timeKey a) (timeKey b)⟩

instance : IsTrans SchedRow timeLe := ⟨fun _ _ _ h1 h2 => Int.le_trans h1 h2⟩

/-- `getPendingScheduledMessages` of the scheduler (current variant):
`SELECT ... WHERE message_status = 'pending' AND schedule_time <= NOW()
ORDER BY schedule_time ASC LIMIT 50`. -/
def getPendingScheduledMessages (db : List SchedRow) (now : Int) : List SchedRow :=
  (((db.filter (dueRow now)).insertionSort timeLe).take 50)

/-- `getPendingScheduledMessages` of the legacy scheduler variant: same
query with `AND schedule_time IS NOT NULL` and `LIMIT 10`. -/
def getPendingScheduledMessages10 (db : List SchedRow) (now : Int) : List SchedRow :=
  (((db.filter (fun r => dueRow now r && r.schedule_time.isSome)).insertionSort timeLe).take 10)

/-- The per-tenant message group built by the `messagesByInstance` grouping
loop: rows of the page belonging to one tenant, in page order. The sweep
then dispatches each group's sends sequentially in exactly this order. -/
def instanceGroup (page : List SchedRow) (g : String) : List SchedRow :=
  page.filter (fun r => r.instance_id == g)

theorem page_sorted (db : List SchedRow) (now : Int) :
    (getPendingScheduledMessages db now).Pairwise timeLe := by
  unfold getPendingScheduledMessages
  exact ((List.sorted_insertionSort timeLe _).sublist (List.take_sublist _ _))

theorem page10_sorted (db : List SchedRow) (now : Int) :
    (getPendingScheduledMessages10 db now).Pairwise timeLe := by
  unfold getPendingScheduledMessages10
  exact ((List.sorted_insertionSort timeLe _).sublist (List.take_sublist _ _))

/-- In a time-sorted list, a strictly earlier schedule time means a strictly
earlier position. -/
theorem sorted_lt_pos (l : List SchedRow) (hs : l.Pairwise timeLe)
    (i j : Fin l.length) (hlt : timeKey (l.get i) < timeKey (l.get j)) : (i : Nat) < j := by
  rcases Nat.lt_trichotomy (i : Nat) (j : Nat) with h | h | h
  · exact h
  · exact absurd hlt (by rw [Fin.eq_of_val_eq h]; exact lt_irrefl _)
  · have := (List.pairwise_iff_get.mp hs) j i (by exact h)
    exact absurd hlt (not_lt.mpr this)

end Scheduler

namespace Scheduler

/-- Claim C7: each scheduler sweep selects at most a fixed page (50 in the
current variant, 10 in the legacy one, both within 10–50) of messages that
are `pending` and due (`schedule_time ≤ now`), ordered by schedule time
ascending; and within the per-tenant group actually dispatched by the
sweep, a message with a strictly earlier schedule time occupies a strictly
earlier position, so its send is dispatched first. -/
theorem C7_scheduler_page (db : List SchedRow) (now : Int) (g : String) :
    (getPendingScheduledMessages db now).length ≤ 50
    ∧ (∀ r ∈ getPendingScheduledMessages db now,
        r.message_status = "pending" ∧ ∃ t, r.schedule_time = some t ∧ t ≤ now)
    ∧ (getPendingScheduledMessages db now).Pairwise timeLe
    ∧ (∀ grp, grp = instanceGroup (getPendingScheduledMessages db now) g →
        ∀ i j : Fin grp.length,
          timeKey (grp.get i) < timeKey (grp.get j) → (i : Nat) < j)
    ∧ (getPendingScheduledMessages10 db now).length ≤ 10
    ∧ (∀ r ∈ getPendingScheduledMessages10 db now,
        r.message_status = "pending" ∧ ∃ t, r.schedule_time = some t ∧ t ≤ now)
    ∧ (∀ grp, grp = instanceGroup (getPendingScheduledMessages10 db now) g →
        ∀ i j : Fin grp.length,
          timeKey (grp.get i) < timeKey (grp.get j) → (i : Nat) < j) := by
  have hmem : ∀ r ∈ getPendingScheduledMessages db now, dueRow now r = true := by
    intro r hr
    have hr1 : r ∈ (db.filter (dueRow now)).insertionSort timeLe :=
      List.mem_of_mem_take hr
    have hr2 : r ∈ db.filter (dueRow now) :=
      (List.perm_insertionSort timeLe _).mem_iff.mp hr1
    exact (List.mem_filter.mp hr2).2
  have hmem10 : ∀ r ∈ getPendingScheduledMessages10 db now, dueRow now r = true := by
    intro r hr
    have hr1 : r ∈ (db.filter (fun r => dueRow now r && r.schedule_time.isSome)).insertionSort
        timeLe := List.mem_of_mem_take hr
    have hr2 : r ∈ db.filter (fun r => dueRow now r && r.schedule_time.isSome) :=
      (List.perm_insertionSort timeLe _).mem_iff.mp hr1
    exact (Bool.and_eq_true_iff.mp (List.mem_filter.mp hr2).2).1
  have hdue : ∀ r : SchedRow, dueRow now r = true →
      r.message_status = "pending" ∧ ∃ t, r.schedule_time = some t ∧ t ≤ now := by
    intro r h
    rcases Bool.and_eq_true_iff.mp h with ⟨h1, h2⟩
    refine ⟨by simpa using h1, ?_⟩
    cases ht : r.schedule_time with
    | none => rw [ht] at h2; simp at h2
    | some t =>
        rw [ht] at h2
        exact ⟨t, rfl, by simpa using h2⟩
  refine ⟨?_, ?_, page_sorted db now, ?_, ?_, ?_, ?_⟩
  · exact List.length_take_le _ _
  · exact fun r hr => hdue r (hmem r hr)
  · intro grp hg i j hlt
    have hgs : grp.Pairwise timeLe := by
      rw [hg]
      exact (page_sorted db now).sublist (List.filter_sublist _)
    exact sorted_lt_pos grp hgs i j hlt
  · exact List.length_take_le _ _
  · exact fun r hr => hdue r (hmem10 r hr)
  · intro grp hg i j hlt
    have hgs : grp.Pairwise timeLe := by
      rw [hg]
      exact (page10_sorted db now).sublist (List.filter_sublist _)
    exact sorted_lt_pos grp hgs i j hlt

/-- Witness for C7 at a concrete table: two due rows of one tenant arrive
in the page earliest-first. -/
theorem C7_scheduler_page_witness :
    (getPendingScheduledMessages
        [⟨1, "t", some 30, "pending"⟩, ⟨2, "t", some 10, "pending"⟩,
         ⟨3, "t", some 99, "sent"⟩, ⟨4, "t", none, "pending"⟩] 50).length ≤ 50
    ∧ getPendingScheduledMessages
        [⟨1, "t", some 30, "pending"⟩, ⟨2, "t", some 10, "pending"⟩,
         ⟨3, "t", some 99, "sent"⟩, ⟨4, "t", none, "pending"⟩] 50
      = [⟨2, "t", some 10, "pending"⟩, ⟨1, "t", some 30, "pending"⟩] :=
  ⟨(C7_scheduler_page
      [⟨1, "t", some 30, "pending"⟩, ⟨2, "t", some 10, "pending"⟩,
       ⟨3, "t", some 99, "sent"⟩, ⟨4, "t", none, "pending"⟩] 50 "t").1,
    by decide⟩

end Scheduler

namespace Qrcode

/-- A live transport socket handle. `sockId` models JS object identity
(the `currentSock === sock` check); `user` models `sock.user`, set once the
session is authenticated. -/
structure SockHandle where
  sockId : Nat
  user : Option String
  deriving DecidableEq, Repr

/-- One entry of the process-wide `instances` registry:
`{ sock, qrCode?, status, lastUpdate }`. -/
structure InstanceEntry where
  sock : Option SockHandle
  qrCode : Option String
  status : String
  lastUpdate : Nat
  deriving DecidableEq, Repr

/-- The `instances` registry: a JS object keyed by instance id. -/
def Registry : Type := String → Option InstanceEntry

/-- `instances[instanceId] = e`. -/
def regSet (reg : Registry) (instanceId : String) (e : InstanceEntry) : Registry :=
  fun x => if x == instanceId then some e else reg x

/-- `delete instances[instanceId]`. -/
def regDelete (reg : Registry) (instanceId : String) : Registry :=
  fun x => if x == instanceId then none else reg x

/-- `DisconnectReason.loggedOut` of the transport library. -/
def DisconnectReason_loggedOut : Int := 401

/-- A reconnect attempt scheduled with `setTimeout`: its delay and the
identity of the socket whose close event scheduled it. -/
structure ScheduledReconnect where
  delayMs : Nat
  sockId : Nat
  deriving DecidableEq, Repr

/-- The `connection === 'close'` branch of the `connection.update` handler
in `initializeSock`: `shouldReconnect = statusCode !== DisconnectReason.loggedOut`.
If reconnecting, the entry is re-written with status `'reconnecting'` (a
spread of the existing entry, which may be absent) and a reconnect is
scheduled after 5000 ms, carrying the closed socket's identity; otherwise
the entry is marked `'disconnected'` and nothing is scheduled. -/
def handleConnectionClose (reg : Registry) (instanceId : String) (closedSockId : Nat)
    (statusCode : Option Int) (now : Nat) : Registry × Option ScheduledReconnect :=
  let shouldReconnect := statusCode ≠ some DisconnectReason_loggedOut
  let prev : InstanceEntry :=
    match reg instanceId with
    | some e => e
    | none => ⟨none, none, "", 0⟩
  if shouldReconnect then
    (regSet reg instanceId { prev with status := "reconnecting", lastUpdate := now },
      some ⟨5000, closedSockId⟩)
  else
    (regSet reg instanceId { prev with status := "disconnected", lastUpdate := now }, none)

/-- The body of the scheduled reconnect callback: it only proceeds (deletes
the entry and re-runs `initializeSock`, reported here as `true`) when the
registry still holds the very socket whose close scheduled it. -/
def fireReconnect (reg : Registry) (instanceId : String) (timerSockId : Nat) :
    Registry × Bool :=
  match (reg instanceId).bind (fun e => e.sock) with
  | some h =>
      if h.sockId == timerSockId then (regDelete reg instanceId, true) else (reg, false)
  | none => (reg, false)

end Qrcode

namespace Qrcode

/-- Claim C8: on a transport-reported close, an explicit-logout reason
(status code 401 = `DisconnectReason.loggedOut`) marks the entry
`disconnected` and never schedules a reconnect; any other reason (including
a missing status code) marks it `reconnecting` and schedules a reconnect
after 5000 ms carrying the closed socket's identity; and the scheduled
reconnect proceeds exactly when the registry still points at that same
socket instance. -/
theorem C8_close_reconnect (reg : Registry) (iid : String) (sid : Nat)
    (code : Option Int) (now : Nat) :
    (code = some DisconnectReason_loggedOut →
      (handleConnectionClose reg iid sid code now).2 = none
      ∧ ((handleConnectionClose reg iid sid code now).1 iid).map (fun e => e.status)
          = some "disconnected")
    ∧ (code ≠ some DisconnectReason_loggedOut →
      (handleConnectionClose reg iid sid code now).2 = some ⟨5000, sid⟩
      ∧ ((handleConnectionClose reg iid sid code now).1 iid).map (fun e => e.status)
          = some "reconnecting")
    ∧ (∀ h, (reg iid).bind (fun e => e.sock) = some h →
        ((fireReconnect reg iid sid).2 = true ↔ h.sockId = sid))
    ∧ ((reg iid).bind (fun e => e.sock) = none → (fireReconnect reg iid sid).2 = false) := by
  refine ⟨?_, ?_, ?_, ?_⟩
  · intro hc
    unfold handleConnectionClose
    rw [if_neg (by simp [hc])]
    constructor
    · rfl
    · simp [regSet]
  · intro hc
    unfold handleConnectionClose
    rw [if_pos hc]
    constructor
    · rfl
    · simp [regSet]
  · intro h hh
    unfold fireReconnect
    rw [hh]
    by_cases hb : h.sockId = sid <;> simp [hb]
  · intro hn
    unfold fireReconnect
    rw [hn]

/-- Witness for C8: a logout close at a concrete registry is terminal, a
non-logout close schedules a 5 s reconnect, and the reconnect proceeds for
the matching socket identity. -/
theorem C8_close_reconnect_witness :
    (handleConnectionClose
        (regSet (fun _ => none) "t" ⟨some ⟨7, some "u"⟩, none, "connected", 0⟩)
        "t" 7 (some 401) 5).2 = none
    ∧ (handleConnectionClose
        (regSet (fun _ => none) "t" ⟨some ⟨7, some "u"⟩, none, "connected", 0⟩)
        "t" 7 (some 428) 5).2 = some ⟨5000, 7⟩
    ∧ ((fireReconnect
        (regSet (fun _ => none) "t" ⟨some ⟨7, some "u"⟩, none, "connected", 0⟩)
        "t" 7).2 = true ↔ (7 : Nat) = 7) :=
  ⟨((C8_close_reconnect
      (regSet (fun _ => none) "t" ⟨some ⟨7, some "u"⟩, none, "connected", 0⟩)
      "t" 7 (some 401) 5).1 rfl).1,
   ((C8_close_reconnect
      (regSet (fun _ => none) "t" ⟨some ⟨7, some "u"⟩, none, "connected", 0⟩)
      "t" 7 (some 428) 5).2.1 (by decide)).1,
   (C8_close_reconnect
      (regSet (fun _ => none) "t" ⟨some ⟨7, some "u"⟩, none, "connected", 0⟩)
      "t" 7 (some 428) 5).2.2.1 ⟨7, some "u"⟩ rfl⟩

/-- The JSON body produced by the `GET /{tenant}/status` handler. -/
structure StatusResponse where
  httpCode : Nat
  success : Bool
  connected : Bool
  status : String
  message : String
  lastUpdate : Option Nat
  deriving DecidableEq, Repr

/-- `getConnectionStatus` of qrcode.js: absent entry → 404 `not_found`;
otherwise `isConnected = instance.sock && instance.sock.user`, which
overrides the stored status string in both directions. -/
def getConnectionStatus (reg : Registry) (instanceId : String) : StatusResponse :=
  match reg instanceId with
  | none => ⟨404, false, false, "not_found", "Instance not found", none⟩
  | some inst =>
      let isConnected :=
        match inst.sock with
        | some h => h.user.isSome
        | none => false
      if isConnected then
        ⟨200, true, true, "connected", "WhatsApp is connected", some inst.lastUpdate⟩
      else if inst.status == "reconnecting" then
        ⟨200, true, false, "reconnecting", "WhatsApp is reconnecting...", some inst.lastUpdate⟩
      else
        ⟨200, true, false, "disconnected", "WhatsApp is not connected", some inst.lastUpdate⟩

/-- Claim C10: with a registry entry, the status endpoint reports
`connected: true` exactly when the stored socket handle has a non-null
`user`; with a `user` it reports status `connected` whatever the stored
status string says, and without one it reports `disconnected` even when the
stored status is `connected`; a tenant without an entry receives a 404
`not_found` response. -/
theorem C10_connection_status (reg : Registry) (iid : String) :
    (reg iid = none →
      getConnectionStatus reg iid = ⟨404, false, false, "not_found", "Instance not found", none⟩)
    ∧ (∀ inst, reg iid = some inst →
      ((getConnectionStatus reg iid).connected = true
          ↔ ∃ h, inst.sock = some h ∧ h.user.isSome = true)
      ∧ (∀ h u, inst.sock = some h → h.user = some u →
          (getConnectionStatus reg iid).status = "connected")
      ∧ ((inst.sock = none ∨ ∃ h, inst.sock = some h ∧ h.user = none) →
          inst.status = "connected" →
          (getConnectionStatus reg iid).status = "disconnected")) := by
  constructor
  · intro hn
    unfold getConnectionStatus
    rw [hn]
  · intro inst hi
    refine ⟨?_, ?_, ?_⟩
    · cases hs : inst.sock with
      | none =>
          by_cases hrc : inst.status == "reconnecting" <;>
            simp [getConnectionStatus, hi, hs, hrc]
      | some h =>
          cases hu : h.user with
          | none =>
              by_cases hrc : inst.status == "reconnecting" <;>
                simp [getConnectionStatus, hi, hs, hu, hrc]
          | some u =>
              simp [getConnectionStatus, hi, hs, hu]
    · intro h u hs hu
      simp [getConnectionStatus, hi, hs, hu]
    · intro hno hst
      have hrc : (inst.status == "reconnecting") = false := by
        rw [hst]; rfl
      rcases hno with hn | ⟨h, hs, hu⟩
      · simp [getConnectionStatus, hi, hn, hrc]
      · simp [getConnectionStatus, hi, hs, hu, hrc]

/-- Witness for C10: an entry whose stored status is `reconnecting` but
whose socket has a user reports `connected`, and a userless socket with
stored status `connected` reports `disconnected`. -/
theorem C10_connection_status_witness :
    (getConnectionStatus
        (regSet (fun _ => none) "t" ⟨some ⟨7, some "u"⟩, none, "reconnecting", 3⟩)
        "t").status = "connected"
    ∧ (getConnectionStatus
        (regSet (fun _ => none) "t" ⟨some ⟨7, none⟩, none, "connected", 3⟩)
        "t").status = "disconnected" :=
  ⟨((C10_connection_status
      (regSet (fun _ => none) "t" ⟨some ⟨7, some "u"⟩, none, "reconnecting", 3⟩) "t").2
      ⟨some ⟨7, some "u"⟩, none, "reconnecting", 3⟩ rfl).2.1 ⟨7, some "u"⟩ "u" rfl rfl,
   ((C10_connection_status
      (regSet (fun _ => none) "t" ⟨some ⟨7, none⟩, none, "connected", 3⟩) "t").2
      ⟨some ⟨7, none⟩, none, "connected", 3⟩ rfl).2.2
      (Or.inr ⟨⟨7, none⟩, rfl, rfl⟩) rfl⟩

end Qrcode

namespace Messages

/-- A row of the `media_messages` table, restricted to the columns the
pipeline reads or writes for status tracking (the free-text columns
`message`, `media` and `caption` carry no claim-relevant behaviour and are
omitted). -/
structure MediaRow where
  id : Nat
  instance_id : String
  recipient : String
  message_status : String
  whatsapp_message_id : Option String
  created_at : Nat
  schedule_time : Option Nat
  deriving DecidableEq, Repr

/-- A row of the `report_time` table (the Delivery Timeline Record): one
nullable timestamp column per delivery state, unique key on
`whatsapp_message_id`. -/
structure ReportRow where
  instance_id : String
  recipient : String
  whatsapp_message_id : String
  initiated_time : Option Nat
  sent_time : Option Nat
  delivered_time : Option Nat
  read_time : Option Nat
  failed_time : Option Nat
  deriving DecidableEq, Repr

/-- The durable state touched by the pipeline: the two tables plus the next
AUTO_INCREMENT id of `media_messages`. -/
structure Ledger where
  messages : List MediaRow
  reports : List ReportRow
  nextId : Nat
  deriving DecidableEq, Repr

/-- The timestamp columns of `report_time`. -/
inductive TimeField where
  | initiated_time
  | sent_time
  | delivered_time
  | read_time
  | failed_time
  deriving DecidableEq, Repr

/-- Read one timestamp column. -/
def ReportRow.getField (r : ReportRow) : TimeField → Option Nat
  | .initiated_time => r.initiated_time
  | .sent_time => r.sent_time
  | .delivered_time => r.delivered_time
  | .read_time => r.read_time
  | .failed_time => r.failed_time

/-- Write one timestamp column. -/
def ReportRow.setField (r : ReportRow) (f : TimeField) (t : Nat) : ReportRow :=
  match f with
  | .initiated_time => { r with initiated_time := some t }
  | .sent_time => { r with sent_time := some t }
  | .delivered_time => { r with delivered_time := some t }
  | .read_time => { r with read_time := some t }
  | .failed_time => { r with failed_time := some t }

/-- The `switch (newStatus.toLowerCase())` of `updateMessageStatusInDB`:
the column matching the new status, with `''` (no column, here `none`) for
`pending`. Every status reaching this switch is a lowercase member of
`validMessageStatus`, so `toLowerCase` is the identity and is dropped. -/
def statusFieldUpdate (newStatus : String) : Option TimeField :=
  if newStatus = "sent" then some .sent_time
  else if newStatus = "delivered" then some .delivered_time
  else if newStatus = "read" then some .read_time
  else if newStatus = "failed" then some .failed_time
  else none

/-- The `switch (messageStatus.toLowerCase())` of
`migrateMessageToReportTime`: same mapping but defaulting to
`initiated_time`. -/
def statusFieldMigrate (messageStatus : String) : TimeField :=
  if messageStatus = "sent" then .sent_time
  else if messageStatus = "delivered" then .delivered_time
  else if messageStatus = "read" then .read_time
  else if messageStatus = "failed" then .failed_time
  else .initiated_time

/-- `migrateMessageToReportTime` of messages.js: guard on missing
parameters, then `INSERT INTO report_time (..., initiated_time, <field>,
created_at) VALUES (...) ON DUPLICATE KEY UPDATE initiated_time =
VALUES(initiated_time), <field> = VALUES(<field>)`, with every inserted
timestamp equal to `createdAt` (or the current time when `createdAt` is
null). The source splits a comma-separated recipient string and skips blank
entries; the model is specialised to a single comma-free recipient, for
which the split yields exactly that recipient and the blank guard is the
emptiness check. -/
def migrateMessageToReportTime (reports : List ReportRow) (instanceId recipient
    whatsappMessageId messageStatus : String) (createdAt : Option Nat) (now : Nat) :
    List ReportRow :=
  if instanceId = "" ∨ recipient = "" ∨ whatsappMessageId = "" then reports
  else
    let f := statusFieldMigrate messageStatus
    let v := createdAt.getD now
    if reports.any (fun r => r.whatsapp_message_id == whatsappMessageId) then
      reports.map fun r =>
        if r.whatsapp_message_id == whatsappMessageId then
          ({ r with initiated_time := some v }).setField f v
        else r
    else
      let fresh : ReportRow :=
        { instance_id := instanceId, recipient := recipient,
          whatsapp_message_id := whatsappMessageId, initiated_time := some v,
          sent_time := none, delivered_time := none, read_time := none,
          failed_time := none }
      reports ++ [fresh.setField f v]

/-- `updateMessageStatusInDB` of messages.js: throw on an invalid status;
`SELECT` the row; if absent, warn and return; else `UPDATE media_messages
SET message_status = ?`. The driver's `affectedRows` counts **matched**
rows (mysql2's default `FOUND_ROWS` flag), so the `affectedRows > 0` branch
is taken exactly when the `SELECT` found the row — even when the new status
equals the stored one. Then, when the row has a WhatsApp message id and the
status has a timestamp column, run `UPDATE report_time SET <field> = NOW()
WHERE whatsapp_message_id = ?` — with no null guard on the column — and
fall back to `migrateMessageToReportTime` exactly when no `report_time` row
matched. -/
def updateMessageStatusInDB (st : Ledger) (messageId : Nat) (newStatus : String)
    (now : Nat) : Except String Ledger :=
  if !(validMessageStatus.contains newStatus) then .error "Invalid message status"
  else
    match st.messages.find? (fun r => r.id == messageId) with
    | none => .ok st
    | some m =>
        let msgs := st.messages.map fun r =>
          if r.id == messageId then { r with message_status := newStatus } else r
        match m.whatsapp_message_id with
        | none => .ok { st with messages := msgs }
        | some wid =>
            match statusFieldUpdate newStatus with
            | none => .ok { st with messages := msgs }
            | some f =>
                if st.reports.any (fun r => r.whatsapp_message_id == wid) then
                  .ok ⟨msgs,
                    st.reports.map fun r =>
                      if r.whatsapp_message_id == wid then r.setField f now else r,
                    st.nextId⟩
                else
                  .ok ⟨msgs,
                    migrateMessageToReportTime st.reports m.instance_id
                      m.recipient wid newStatus (some m.created_at) now,
                    st.nextId⟩

/-- `logMediaMessageToDB` of messages.js: validate the status (an
unrecognised value is silently coerced to `'sent'`), then insert one
`media_messages` row per phone number with `created_at = NOW()`, returning
the new ids. Placeholder substitution only rewrites the omitted free-text
columns and is claim-irrelevant. -/
def logMediaMessageToDB (st : Ledger) (instanceId : String) (phoneNumbers : List String)
    (scheduleTime : Option Nat) (messageStatus : String) (whatsappMessageId : Option String)
    (now : Nat) : Ledger × List Nat :=
  let v := if validMessageStatus.contains messageStatus then messageStatus else "sent"
  phoneNumbers.foldl
    (fun acc pn =>
      (⟨acc.1.messages ++
          [⟨acc.1.nextId, instanceId, pn, v, whatsappMessageId, now, scheduleTime⟩],
        acc.1.reports, acc.1.nextId + 1⟩,
        acc.2 ++ [acc.1.nextId]))
    (st, [])

end Messages

namespace Messages

/-- `MAX_RETRIES` of `sendMessagesOneAtATime`. -/
def MAX_RETRIES : Nat := 3

/-- `RETRY_DELAY` of `sendMessagesOneAtATime` (milliseconds). -/
def RETRY_DELAY : Nat := 3000

/-- The outcome of one `sock.sendMessage` call: success carrying
`result.key.id`, an error whose message is `'Timed Out'`, or any other
error. -/
inductive SendOutcome where
  | ok (wamid : String)
  | timedOut
  | fatal

/-- What a `sendWithRetry` call did: the WhatsApp message id when it
returned (none when it threw), the number of transport calls made, and the
sleeps taken between them. -/
structure RetryTrace where
  result : Option String
  attempts : Nat
  delays : List Nat
  deriving DecidableEq, Repr

/-- `sendWithRetry` of `sendMessagesOneAtATime`, with the recursion run on
the fuel `MAX_RETRIES - retryCount` (the JS guard `retryCount < MAX_RETRIES`
is exactly `fuel > 0`, and the recursive call at `retryCount + 1` has fuel
one less): retry only on a `'Timed Out'` error, sleeping `RETRY_DELAY`
before each retry; any other error propagates at once. -/
def sendWithRetryFuel (oracle : Nat → SendOutcome) : (fuel retryCount : Nat) → RetryTrace
  | fuel, retryCount =>
    match oracle retryCount with
    | .ok wamid => ⟨some wamid, 1, []⟩
    | .fatal => ⟨none, 1, []⟩
    | .timedOut =>
        match fuel with
        | 0 => ⟨none, 1, []⟩
        | f + 1 =>
            let t := sendWithRetryFuel oracle f (retryCount + 1)
            ⟨t.result, t.attempts + 1, RETRY_DELAY :: t.delays⟩

/-- `sendWithRetry(jid, content, retryCount)`. -/
def sendWithRetry (oracle : Nat → SendOutcome) (retryCount : Nat) : RetryTrace :=
  sendWithRetryFuel oracle (MAX_RETRIES - retryCount) retryCount

/-- A live socket as seen by the pipeline; `user` is `sock.user.id`
(the connection-ready check requires it to be present and non-empty). -/
structure Sock where
  user : Option String

/-- The readiness check `!sock || !sock.user || !sock.user.id` of
`sendMessagesOneAtATime` (an empty id string is falsy in JS). -/
def sockReady : Option Sock → Bool
  | none => false
  | some s =>
      match s.user with
      | none => false
      | some uid => uid != ""

/-- JS truthiness of the processed text: present and non-empty. -/
def textTruthy : Option String → Bool
  | none => false
  | some t => t != ""

/-- One outbound message of a batch, together with the transport's
behaviour for its media send and its text send (the oracle gives the
outcome of each successive `sock.sendMessage` call for that content). -/
structure OutMsg where
  number : String
  text : Option String
  caption : Option String
  mediaOracle : Nat → SendOutcome
  textOracle : Nat → SendOutcome

/-- The media payload built by `sendMedia` (content is opaque to the
pipeline; only its presence matters). -/
structure MediaPayload where
  fileName : String

/-- `updateMessageWithWhatsAppId` of messages.js: guard on missing
parameters (a JS-falsy db id 0 or a null WhatsApp id), `SELECT` the row,
then `UPDATE media_messages SET whatsapp_message_id = ?, message_status =
'sent' WHERE id = ?`. Under the driver's matched-rows `affectedRows`
(mysql2's default `FOUND_ROWS` flag) the `affectedRows > 0` branch is taken
exactly when the row exists, so the migrate into `report_time` with status
`'sent'` runs on every call that finds the row — also on a repeat call with
identical values. -/
def updateMessageWithWhatsAppId (st : Ledger) (dbId : Nat) (wamid : Option String)
    (now : Nat) : Ledger :=
  match wamid with
  | none => st
  | some w =>
      if dbId = 0 then st
      else
        match st.messages.find? (fun r => r.id == dbId) with
        | none => st
        | some m =>
            let msgs := st.messages.map fun r =>
              if r.id == dbId then
                { r with whatsapp_message_id := some w, message_status := "sent" }
              else r
            ⟨msgs,
              migrateMessageToReportTime st.reports m.instance_id m.recipient w "sent"
                (some m.created_at) now,
              st.nextId⟩

/-- The body of the `for (const message of messages)` loop of
`sendMessagesOneAtATime` for one message: insert the `pending` row, send
media (if a payload exists) and then text (if truthy) through
`sendWithRetry`, marking the row `failed` and continuing with the next
message when a send throws; on success record the WhatsApp id and the
`sent` status via `updateMessageWithWhatsAppId`. Returns the new state and
whether `totalMessagesSent` was incremented. -/
def processOneMessage (st : Ledger) (msg : OutMsg) (mediaPayload : Option MediaPayload)
    (instanceId : String) (scheduleTime : Option Nat) (now : Nat) : Ledger × Bool :=
  let logged := logMediaMessageToDB st instanceId [msg.number] scheduleTime "pending" none now
  let st1 := logged.1
  let dbId := logged.2.headD 0
  let mediaStep : Ledger × Option String × Bool :=
    match mediaPayload with
    | none => (st1, none, true)
    | some _ =>
        match (sendWithRetry msg.mediaOracle 0).result with
        | some w => (st1, some w, true)
        | none =>
            match updateMessageStatusInDB st1 dbId "failed" now with
            | .ok st2 => (st2, none, false)
            | .error _ => (st1, none, false)
  match mediaStep with
  | (st2, _, false) => (st2, false)
  | (st2, widMedia, true) =>
      if textTruthy msg.text then
        match (sendWithRetry msg.textOracle 0).result with
        | some w => (updateMessageWithWhatsAppId st2 dbId (some w) now, true)
        | none =>
            match updateMessageStatusInDB st2 dbId "failed" now with
            | .ok st3 => (st3, false)
            | .error _ => (st2, false)
      else (updateMessageWithWhatsAppId st2 dbId widMedia now, true)

/-- Whether one message's processing completes without an uncaught error:
all the sends it attempts succeed. This depends only on the message and the
payload, not on the ledger state. -/
def msgSucceeds (msg : OutMsg) (mediaPayload : Option MediaPayload) : Bool :=
  (match mediaPayload with
   | none => true
   | some _ => (sendWithRetry msg.mediaOracle 0).result.isSome) &&
  (if textTruthy msg.text then (sendWithRetry msg.textOracle 0).result.isSome else true)

/-- One iteration of the batch loop: run `processOneMessage` on the
accumulated state and increment `totalMessagesSent` when it completed. -/
def sendLoopStep (mediaPayload : Option MediaPayload) (instanceId : String)
    (scheduleTime : Option Nat) (now : Nat) (acc : Ledger × Nat) (msg : OutMsg) :
    Ledger × Nat :=
  let r := processOneMessage acc.1 msg mediaPayload instanceId scheduleTime now
  (r.1, acc.2 + if r.2 then 1 else 0)

/-- `sendMessagesOneAtATime` of messages.js: throw unless the connection is
ready, then process the batch strictly in order, counting the messages
whose processing completed; a failure on one message does not abort the
loop. Returns the final ledger and `totalMessagesSent`. -/
def sendMessagesOneAtATime (st : Ledger) (messages : List OutMsg)
    (mediaPayload : Option MediaPayload) (sock : Option Sock) (instanceId : String)
    (scheduleTime : Option Nat) (now : Nat) : Except String (Ledger × Nat) :=
  if !(sockReady sock) then .error "WhatsApp connection not ready"
  else
    .ok (messages.foldl (sendLoopStep mediaPayload instanceId scheduleTime now) (st, 0))

/-- The newest active subscription row, as returned by the `SELECT ... FROM
subscription ... WHERE date_expiry >= CURDATE() ORDER BY ... LIMIT 1`
query. -/
structure Subscription where
  num_messages : Int
  deriving DecidableEq, Repr

/-- The HTTP outcome of `sendMedia`. -/
inductive HttpResult where
  | badRequest (msg : String)
  | serverError (msg : String)
  | okResult (totalMessages : Nat)
  deriving DecidableEq, Repr

/-- `sendMedia` of messages.js. The two database reads (the active
subscription and the count of messages created inside its window) enter as
the parameters `sub` and `sentCount`; the file-processing block enters as
`mediaStage` (its error exit or the payload it builds). The quota gate runs
before the socket check, the file handling and any write: it rejects the
whole batch when `remaining = num_messages - sentCount ≤ 0` or when the
batch is larger than `remaining`. The catch-all logs the batch as `failed`
rows and answers 500. -/
def sendMedia (st : Ledger) (instanceId : String) (messages : List OutMsg)
    (sub : Option Subscription) (sentCount : Int) (sock : Option Sock)
    (mediaStage : Except String (Option MediaPayload)) (scheduleTime : Option Nat)
    (now : Nat) : Ledger × HttpResult :=
  if messages.isEmpty then (st, .badRequest "Messages are required and must be an array")
  else
    match sub with
    | none => (st, .badRequest "No active subscription found")
    | some s =>
        let messagesRemaining : Int := s.num_messages - sentCount
        if messagesRemaining ≤ 0 then
          (st, .badRequest "Message limit reached. Please recharge your subscription.")
        else if (messages.length : Int) > messagesRemaining then
          (st, .badRequest ("Can only send " ++ toString messagesRemaining ++
            " more messages with current subscription"))
        else
          match sock with
          | none => (st, .badRequest "WhatsApp instance not connected")
          | some sk =>
              match mediaStage with
              | .error e => (st, .badRequest e)
              | .ok mediaPayload =>
                  match sendMessagesOneAtATime st messages mediaPayload (some sk)
                      instanceId scheduleTime now with
                  | .ok (st', n) => (st', .okResult n)
                  | .error e =>
                      let logged := logMediaMessageToDB st instanceId
                        (messages.map (fun m => m.number)) scheduleTime "failed" none now
                      (logged.1, .serverError e)

end Messages

namespace Messages

theorem getField_setField (r : ReportRow) (f : TimeField) (t : Nat) :
    (r.setField f t).getField f = some t := by
  cases f <;> rfl

theorem setField_wid (r : ReportRow) (f : TimeField) (t : Nat) :
    (r.setField f t).whatsapp_message_id = r.whatsapp_message_id := by
  cases f <;> rfl

/-- After the `report_time` update, every row carrying the updated WhatsApp
message id holds the event time in the updated column. -/
theorem reportRow_update_field (l : List ReportRow) (wid : String) (f : TimeField)
    (now : Nat) :
    ∀ r ∈ l.map (fun r0 =>
        if r0.whatsapp_message_id == wid then r0.setField f now else r0),
      r.whatsapp_message_id = wid → r.getField f = some now := by
  intro r hr hrid
  rcases List.mem_map.mp hr with ⟨r0, _, hf⟩
  by_cases hb : r0.whatsapp_message_id = wid
  · rw [← hf, if_pos (by simp [hb])]
    exact getField_setField r0 f now
  · have hido : r.whatsapp_message_id = r0.whatsapp_message_id := by
      rw [← hf]; split
      · exact setField_wid r0 f now
      · rfl
    rw [hido] at hrid
    exact absurd hrid hb

/-- After the `media_messages` status update, every row carrying the
updated id holds the new status. -/
theorem mediaRow_update_status (l : List MediaRow) (d : Nat) (v : String) :
    ∀ r ∈ l.map (fun r0 => if r0.id == d then { r0 with message_status := v } else r0),
      r.id = d → r.message_status = v := by
  intro r hr hrid
  rcases List.mem_map.mp hr with ⟨r0, _, hf⟩
  by_cases hb : r0.id = d
  · rw [← hf, if_pos (by simp [hb])]
  · have hido : r.id = r0.id := by
      rw [← hf]; split <;> rfl
    rw [hido] at hrid
    exact absurd hrid hb

/-- After `updateMessageWithWhatsAppId`, every row carrying the updated id
is `sent` and records the WhatsApp message id. -/
theorem mediaRow_update_wamid (l : List MediaRow) (d : Nat) (w : String) :
    ∀ r ∈ l.map (fun r0 =>
        if r0.id == d then
          { r0 with whatsapp_message_id := some w, message_status := "sent" }
        else r0),
      r.id = d → r.message_status = "sent" ∧ r.whatsapp_message_id = some w := by
  intro r hr hrid
  rcases List.mem_map.mp hr with ⟨r0, _, hf⟩
  by_cases hb : r0.id = d
  · rw [← hf, if_pos (by simp [hb])]
    exact ⟨rfl, rfl⟩
  · have hido : r.id = r0.id := by
      rw [← hf]; split <;> rfl
    rw [hido] at hrid
    exact absurd hrid hb

/-- `find?` on a table extended with a fresh row finds exactly that row. -/
theorem find?_id_append_fresh (l : List MediaRow) (row : MediaRow)
    (hfresh : ∀ r ∈ l, r.id ≠ row.id) :
    (l ++ [row]).find? (fun r => r.id == row.id) = some row := by
  induction l with
  | nil => simp
  | cons a t ih =>
      have ha : (a.id == row.id) = false := by
        simp [hfresh a (by simp)]
      simp only [List.cons_append, List.find?_cons, ha]
      exact ih (fun r hr => hfresh r (by simp [hr]))

/-- Inserting one `pending` row. -/
theorem logMedia_pending_one (st : Ledger) (iid pn : String) (sched : Option Nat)
    (now : Nat) :
    logMediaMessageToDB st iid [pn] sched "pending" none now
      = (⟨st.messages ++ [⟨st.nextId, iid, pn, "pending", none, now, sched⟩],
          st.reports, st.nextId + 1⟩, [st.nextId]) := rfl

/-- Evaluating `updateMessageStatusInDB` on a table whose last row is fresh
and has no WhatsApp message id: only the status column changes. -/
theorem updateStatus_fresh (msgs : List MediaRow) (reports : List ReportRow) (nid : Nat)
    (row : MediaRow) (d : Nat) (v : String) (now : Nat) (hd : row.id = d)
    (hfresh : ∀ r ∈ msgs, r.id ≠ d)
    (hv : validMessageStatus.contains v = true)
    (hwid : row.whatsapp_message_id = none) :
    updateMessageStatusInDB ⟨msgs ++ [row], reports, nid⟩ d v now
      = .ok ⟨(msgs ++ [row]).map
          (fun r0 => if r0.id == d then { r0 with message_status := v } else r0),
          reports, nid⟩ := by
  subst hd
  have hval : (!validMessageStatus.contains v) = false := by rw [hv]; rfl
  simp only [updateMessageStatusInDB, hval, Bool.false_eq_true, if_false,
    find?_id_append_fresh msgs row hfresh, hwid]

/-- Evaluating `updateMessageWithWhatsAppId` on a table whose last row is a
fresh `pending` row: the row becomes `sent` with the WhatsApp id recorded,
and the row is migrated into `report_time`. -/
theorem updateWid_fresh (msgs : List MediaRow) (reports : List ReportRow) (nid : Nat)
    (row : MediaRow) (d : Nat) (w : String) (now : Nat) (hd : row.id = d)
    (hfresh : ∀ r ∈ msgs, r.id ≠ d) (hid : d ≠ 0) :
    updateMessageWithWhatsAppId ⟨msgs ++ [row], reports, nid⟩ d (some w) now
      = ⟨(msgs ++ [row]).map
          (fun r0 => if r0.id == d then
            { r0 with whatsapp_message_id := some w, message_status := "sent" }
          else r0),
          migrateMessageToReportTime reports row.instance_id row.recipient w "sent"
            (some row.created_at) now,
          nid⟩ := by
  subst hd
  simp only [updateMessageWithWhatsAppId, if_neg hid,
    find?_id_append_fresh msgs row hfresh]

end Messages

namespace Messages

/-- Every sleep taken by the retry loop is the fixed `RETRY_DELAY`. -/
theorem sendWithRetryFuel_delays (oracle : Nat → SendOutcome) :
    ∀ (fuel rc : Nat), ∀ d ∈ (sendWithRetryFuel oracle fuel rc).delays, d = RETRY_DELAY := by
  intro fuel
  induction fuel with
  | zero =>
      intro rc d hd
      simp only [sendWithRetryFuel] at hd
      cases h : oracle rc <;> rw [h] at hd <;> simp at hd
  | succ f ih =>
      intro rc d hd
      simp only [sendWithRetryFuel] at hd
      cases h : oracle rc <;> rw [h] at hd
      · simp at hd
      · simp only [List.mem_cons] at hd
        rcases hd with rfl | hd
        · rfl
        · exact ih (rc + 1) d hd
      · simp at hd

/-- The retry loop makes at most `fuel + 1` transport calls. -/
theorem sendWithRetryFuel_attempts (oracle : Nat → SendOutcome) :
    ∀ (fuel rc : Nat), (sendWithRetryFuel oracle fuel rc).attempts ≤ fuel + 1 := by
  intro fuel
  induction fuel with
  | zero =>
      intro rc
      simp only [sendWithRetryFuel]
      cases h : oracle rc <;> simp
  | succ f ih =>
      intro rc
      simp only [sendWithRetryFuel]
      cases h : oracle rc
      · simp
      · have h1 := ih (rc + 1)
        simp
        omega
      · simp

/-- An immediately successful call makes one attempt and no sleep. -/
theorem sendWithRetryFuel_ok_now (oracle : Nat → SendOutcome) (fuel rc : Nat)
    (wamid : String) (hf : oracle rc = .ok wamid) :
    sendWithRetryFuel oracle fuel rc = ⟨some wamid, 1, []⟩ := by
  cases fuel <;> simp [sendWithRetryFuel, hf]

/-- An immediate non-timeout error makes one attempt and no sleep. -/
theorem sendWithRetryFuel_fatal_now (oracle : Nat → SendOutcome) (fuel rc : Nat)
    (hf : oracle rc = .fatal) :
    sendWithRetryFuel oracle fuel rc = ⟨none, 1, []⟩ := by
  cases fuel <;> simp [sendWithRetryFuel, hf]

/-- A run of `k` timeouts followed by a non-timeout error: the error
propagates after exactly `k + 1` calls and `k` fixed sleeps, with no
result. -/
theorem sendWithRetryFuel_fatal (oracle : Nat → SendOutcome) :
    ∀ (k fuel rc : Nat), k ≤ fuel →
      (∀ j, rc ≤ j → j < rc + k → oracle j = .timedOut) →
      oracle (rc + k) = .fatal →
      sendWithRetryFuel oracle fuel rc = ⟨none, k + 1, List.replicate k RETRY_DELAY⟩ := by
  intro k
  induction k with
  | zero =>
      intro fuel rc _ _ hf
      simp only [Nat.add_zero] at hf
      exact sendWithRetryFuel_fatal_now oracle fuel rc hf
  | succ k ih =>
      intro fuel rc hk hts hf
      have ht : oracle rc = .timedOut := hts rc le_rfl (by omega)
      cases fuel with
      | zero => omega
      | succ f =>
          simp only [sendWithRetryFuel, ht]
          have hrec := ih f (rc + 1) (by omega)
            (fun j h1 h2 => hts j (by omega) (by omega))
            (by rw [show rc + 1 + k = rc + (k + 1) by omega]; exact hf)
          rw [hrec]
          simp [List.replicate_succ]

/-- A run of `k` timeouts followed by a success: the WhatsApp id is
returned after exactly `k + 1` calls and `k` fixed sleeps. -/
theorem sendWithRetryFuel_ok (oracle : Nat → SendOutcome) (wamid : String) :
    ∀ (k fuel rc : Nat), k ≤ fuel →
      (∀ j, rc ≤ j → j < rc + k → oracle j = .timedOut) →
      oracle (rc + k) = .ok wamid →
      sendWithRetryFuel oracle fuel rc
        = ⟨some wamid, k + 1, List.replicate k RETRY_DELAY⟩ := by
  intro k
  induction k with
  | zero =>
      intro fuel rc _ _ hf
      simp only [Nat.add_zero] at hf
      exact sendWithRetryFuel_ok_now oracle fuel rc wamid hf
  | succ k ih =>
      intro fuel rc hk hts hf
      have ht : oracle rc = .timedOut := hts rc le_rfl (by omega)
      cases fuel with
      | zero => omega
      | succ f =>
          simp only [sendWithRetryFuel, ht]
          have hrec := ih f (rc + 1) (by omega)
            (fun j h1 h2 => hts j (by omega) (by omega))
            (by rw [show rc + 1 + k = rc + (k + 1) by omega]; exact hf)
          rw [hrec]
          simp [List.replicate_succ]

/-- Timeouts throughout: the loop gives up after `fuel + 1` calls. -/
theorem sendWithRetryFuel_exhausted (oracle : Nat → SendOutcome) :
    ∀ (fuel rc : Nat),
      (∀ j, rc ≤ j → j ≤ rc + fuel → oracle j = .timedOut) →
      sendWithRetryFuel oracle fuel rc
        = ⟨none, fuel + 1, List.replicate fuel RETRY_DELAY⟩ := by
  intro fuel
  induction fuel with
  | zero =>
      intro rc hts
      have ht : oracle rc = .timedOut := hts rc le_rfl (by omega)
      simp only [sendWithRetryFuel, ht]
      rfl
  | succ f ih =>
      intro rc hts
      have ht : oracle rc = .timedOut := hts rc le_rfl (by omega)
      simp only [sendWithRetryFuel, ht]
      have hrec := ih (rc + 1) (fun j h1 h2 => hts j (by omega) (by omega))
      rw [hrec]
      simp [List.replicate_succ]

end Messages

namespace Messages

/-- `processOneMessage` without a media payload, written out: insert the
pending row, then send the text (when truthy) and finish accordingly. -/
theorem processOne_noMedia (st : Ledger) (msg : OutMsg) (iid : String)
    (sched : Option Nat) (now : Nat) :
    processOneMessage st msg none iid sched now
      = (if textTruthy msg.text then
           match (sendWithRetry msg.textOracle 0).result with
           | some w =>
               (updateMessageWithWhatsAppId
                 ⟨st.messages ++ [⟨st.nextId, iid, msg.number, "pending", none, now, sched⟩],
                   st.reports, st.nextId + 1⟩ st.nextId (some w) now, true)
           | none =>
               match updateMessageStatusInDB
                   ⟨st.messages ++ [⟨st.nextId, iid, msg.number, "pending", none, now, sched⟩],
                     st.reports, st.nextId + 1⟩ st.nextId "failed" now with
               | .ok st3 => (st3, false)
               | .error _ =>
                   (⟨st.messages ++ [⟨st.nextId, iid, msg.number, "pending", none, now, sched⟩],
                     st.reports, st.nextId + 1⟩, false)
         else
           (updateMessageWithWhatsAppId
             ⟨st.messages ++ [⟨st.nextId, iid, msg.number, "pending", none, now, sched⟩],
               st.reports, st.nextId + 1⟩ st.nextId none now, true)) := rfl

/-- Whether the loop counter is incremented for a message depends only on
the message's own sends. -/
theorem processOne_flag (st : Ledger) (msg : OutMsg) (mp : Option MediaPayload)
    (iid : String) (sched : Option Nat) (now : Nat) :
    (processOneMessage st msg mp iid sched now).2 = msgSucceeds msg mp := by
  cases mp with
  | none =>
      rw [processOne_noMedia]
      unfold msgSucceeds
      by_cases ht : textTruthy msg.text
      · cases hs : (sendWithRetry msg.textOracle 0).result with
        | some w => simp [ht, hs]
        | none =>
            cases hu : updateMessageStatusInDB
                ⟨st.messages ++ [⟨st.nextId, iid, msg.number, "pending", none, now, sched⟩],
                  st.reports, st.nextId + 1⟩ st.nextId "failed" now with
            | ok st3 => simp [ht, hs, hu]
            | error e => simp [ht, hs, hu]
      · simp [ht]
  | some p =>
      simp only [processOneMessage, logMedia_pending_one, List.headD_cons, msgSucceeds]
      cases hm : (sendWithRetry msg.mediaOracle 0).result with
      | none =>
          cases hu : updateMessageStatusInDB
              ⟨st.messages ++ [⟨st.nextId, iid, msg.number, "pending", none, now, sched⟩],
                st.reports, st.nextId + 1⟩ st.nextId "failed" now with
          | ok st2 => simp [hm, hu]
          | error e => simp [hm, hu]
      | some w =>
          by_cases ht : textTruthy msg.text
          · cases hs : (sendWithRetry msg.textOracle 0).result with
            | some w2 => simp [hm, ht, hs]
            | none =>
                cases hu : updateMessageStatusInDB
                    ⟨st.messages ++ [⟨st.nextId, iid, msg.number, "pending", none, now, sched⟩],
                      st.reports, st.nextId + 1⟩ st.nextId "failed" now with
                | ok st3 => simp [hm, ht, hs, hu]
                | error e => simp [hm, ht, hs, hu]
          · simp [hm, ht]

/-- The batch loop visits every message and adds one to the counter for
exactly the messages whose sends all succeed. -/
theorem sendLoop_count (mp : Option MediaPayload) (iid : String) (sched : Option Nat)
    (now : Nat) :
    ∀ (msgs : List OutMsg) (st : Ledger) (n : Nat),
      (msgs.foldl (sendLoopStep mp iid sched now) (st, n)).2
        = n + msgs.countP (fun m => msgSucceeds m mp) := by
  intro msgs
  induction msgs with
  | nil => intro st n; simp
  | cons m rest ih =>
      intro st n
      have hs : sendLoopStep mp iid sched now (st, n) m
          = ((processOneMessage st m mp iid sched now).1,
              n + if (processOneMessage st m mp iid sched now).2 then 1 else 0) := rfl
      rw [List.foldl_cons, hs, ih]
      rw [List.countP_cons, processOne_flag]
      by_cases h : msgSucceeds m mp
      · simp [h]
        omega
      · simp [h]

end Messages

namespace Messages

/-- Claim C5 (counterexample): the return value of
`sendMessagesOneAtATime` is not the number of messages transitioned to
`sent`. A batch with one message carrying neither a media payload nor text
is counted (the function returns 1) while its only ledger row stays
`pending`: no message was transitioned to `sent`. -/
theorem C5_count_counterexample :
    sendMessagesOneAtATime ⟨[], [], 1⟩
        [⟨"15551234", none, none, fun _ => .fatal, fun _ => .fatal⟩] none
        (some ⟨some "user1"⟩) "tenant" none 0
      = .ok (⟨[⟨1, "tenant", "15551234", "pending", none, 0, none⟩], [], 2⟩, 1)
    ∧ ([⟨1, "tenant", "15551234", "pending", none, 0, none⟩] : List MediaRow).countP
        (fun r => r.message_status == "sent") = 0 := ⟨rfl, rfl⟩

/-- Claim C5 (amended): with a ready connection, `sendMessagesOneAtATime`
never throws and returns the number of messages in the batch whose
processing completed without an uncaught error (all attempted sends
succeeded). That count equals the number of messages transitioned to `sent`
when every counted message actually sent something, but a message with
neither media nor non-empty text is counted while remaining `pending`. An
error on one message never aborts the batch: the count is a per-message
predicate summed over the whole batch. -/
theorem C5_count_amended (st : Ledger) (msgs : List OutMsg) (mp : Option MediaPayload)
    (sock : Option Sock) (iid : String) (sched : Option Nat) (now : Nat)
    (h : sockReady sock = true) :
    (sendMessagesOneAtATime st msgs mp sock iid sched now).toOption.map (fun p => p.2)
      = some (msgs.countP (fun m => msgSucceeds m mp)) := by
  unfold sendMessagesOneAtATime
  rw [h]
  simp only [Bool.not_true, Bool.false_eq_true, if_false, Except.toOption, Option.map]
  rw [sendLoop_count mp iid sched now msgs st 0]
  simp

/-- Witness for C5 (amended): a two-message batch whose first message fails
fatally and whose second succeeds yields count 1 and no thrown error. -/
theorem C5_count_amended_witness :
    sockReady (some ⟨some "user1"⟩) = true
    ∧ (sendMessagesOneAtATime ⟨[], [], 1⟩
          [⟨"111", some "a", none, fun _ => .fatal, fun _ => .fatal⟩,
           ⟨"222", some "b", none, fun _ => .fatal, fun _ => .ok "W2"⟩] none
          (some ⟨some "user1"⟩) "t" none 0).toOption.map (fun p => p.2)
        = some (([⟨"111", some "a", none, fun _ => .fatal, fun _ => .fatal⟩,
             ⟨"222", some "b", none, fun _ => .fatal, fun _ => .ok "W2"⟩] :
               List OutMsg).countP (fun m => msgSucceeds m none)) :=
  ⟨rfl, C5_count_amended ⟨[], [], 1⟩
    [⟨"111", some "a", none, fun _ => .fatal, fun _ => .fatal⟩,
     ⟨"222", some "b", none, fun _ => .fatal, fun _ => .ok "W2"⟩] none
    (some ⟨some "user1"⟩) "t" none 0 rfl⟩

/-- Claim C6: per send attempt, a `'Timed Out'` transport error is retried
up to `MAX_RETRIES = 3` times with a fixed `RETRY_DELAY = 3000` ms sleep
between attempts; a non-timeout error propagates without any retry; after
`k` timeouts a success on attempt `k` returns the WhatsApp id after `k + 1`
calls; all four attempts timing out gives up with no result; and in the
pipeline a message whose send throws ends with ledger status `failed`,
while a successful send leaves it `sent` with the transport message id
recorded. -/
theorem C6_retry_policy
    (oracle : Nat → SendOutcome) (k : Nat) (wamid : String)
    (st : Ledger) (msg : OutMsg) (iid : String) (sched : Option Nat) (now : Nat)
    (hk : k ≤ MAX_RETRIES) (htext : textTruthy msg.text = true)
    (hfresh : ∀ r ∈ st.messages, r.id ≠ st.nextId) (hid : st.nextId ≠ 0) :
    MAX_RETRIES = 3 ∧ RETRY_DELAY = 3000
    ∧ (∀ d ∈ (sendWithRetry oracle 0).delays, d = RETRY_DELAY)
    ∧ (sendWithRetry oracle 0).attempts ≤ MAX_RETRIES + 1
    ∧ ((∀ j, j < k → oracle j = .timedOut) → oracle k = .fatal →
        sendWithRetry oracle 0 = ⟨none, k + 1, List.replicate k RETRY_DELAY⟩)
    ∧ ((∀ j, j ≤ MAX_RETRIES → oracle j = .timedOut) →
        sendWithRetry oracle 0
          = ⟨none, MAX_RETRIES + 1, List.replicate MAX_RETRIES RETRY_DELAY⟩)
    ∧ ((∀ j, j < k → oracle j = .timedOut) → oracle k = .ok wamid →
        sendWithRetry oracle 0 = ⟨some wamid, k + 1, List.replicate k RETRY_DELAY⟩)
    ∧ ((sendWithRetry msg.textOracle 0).result = none →
        ∀ r ∈ (processOneMessage st msg none iid sched now).1.messages,
          r.id = st.nextId → r.message_status = "failed")
    ∧ ((sendWithRetry msg.textOracle 0).result = some wamid →
        ∀ r ∈ (processOneMessage st msg none iid sched now).1.messages,
          r.id = st.nextId →
            r.message_status = "sent" ∧ r.whatsapp_message_id = some wamid) := by
  refine ⟨rfl, rfl, ?_, ?_, ?_, ?_, ?_, ?_, ?_⟩
  · intro d hd
    exact sendWithRetryFuel_delays oracle (MAX_RETRIES - 0) 0 d hd
  · exact sendWithRetryFuel_attempts oracle (MAX_RETRIES - 0) 0
  · intro hts hf
    exact sendWithRetryFuel_fatal oracle k (MAX_RETRIES - 0) 0 (by omega)
      (fun j h1 h2 => hts j (by omega)) (by simpa using hf)
  · intro hts
    exact sendWithRetryFuel_exhausted oracle (MAX_RETRIES - 0) 0
      (fun j h1 h2 => hts j (by omega))
  · intro hts hf
    exact sendWithRetryFuel_ok oracle wamid k (MAX_RETRIES - 0) 0 (by omega)
      (fun j h1 h2 => hts j (by omega)) (by simpa using hf)
  · intro hsend r hr hrid
    rw [processOne_noMedia, if_pos htext, hsend,
      updateStatus_fresh st.messages st.reports (st.nextId + 1)
        ⟨st.nextId, iid, msg.number, "pending", none, now, sched⟩ st.nextId "failed" now
        rfl hfresh (by decide) rfl] at hr
    exact mediaRow_update_status _ st.nextId "failed" r hr hrid
  · intro hsend r hr hrid
    rw [processOne_noMedia, if_pos htext, hsend] at hr
    have hr2 : r ∈ (updateMessageWithWhatsAppId
        ⟨st.messages ++ [⟨st.nextId, iid, msg.number, "pending", none, now, sched⟩],
          st.reports, st.nextId + 1⟩ st.nextId (some wamid) now).messages := hr
    rw [updateWid_fresh st.messages st.reports (st.nextId + 1)
        ⟨st.nextId, iid, msg.number, "pending", none, now, sched⟩ st.nextId wamid now
        rfl hfresh hid] at hr2
    exact mediaRow_update_wamid _ st.nextId wamid r hr2 hrid

/-- Witness for C6: a text message whose send times out twice and then
succeeds ends `sent` with the id recorded; the retry trace shows three
calls and two 3-second sleeps. -/
theorem C6_retry_policy_witness :
    sendWithRetry (fun j => if j < 2 then .timedOut else .ok "W7") 0
        = ⟨some "W7", 3, [3000, 3000]⟩
    ∧ (⟨1, "t", "333", "sent", some "W7", 5, none⟩ : MediaRow).message_status = "sent"
    ∧ (⟨1, "t", "333", "sent", some "W7", 5, none⟩ : MediaRow).whatsapp_message_id
        = some "W7" := by
  have h := C6_retry_policy (fun j => if j < 2 then .timedOut else .ok "W7") 2 "W7"
    ⟨[], [], 1⟩ ⟨"333", some "hello", none, fun _ => .fatal,
      fun j => if j < 2 then .timedOut else .ok "W7"⟩ "t" none 5
    (by decide) rfl (by simp) (by decide)
  refine ⟨?_, ?_⟩
  · have h5 := h.2.2.2.2.2.2.1
    rw [h5 (fun j hj => by
        have : j < 2 := hj
        simp [this]) (by simp)]
    rfl
  · have h7 := h.2.2.2.2.2.2.2.2
    have hsend : (sendWithRetry
        (⟨"333", some "hello", none, fun _ => .fatal,
          fun j => if j < 2 then .timedOut else .ok "W7"⟩ : OutMsg).textOracle 0).result
        = some "W7" := rfl
    exact h7 hsend ⟨1, "t", "333", "sent", some "W7", 5, none⟩ (by decide) rfl

end Messages

namespace Messages

/-- Claim C2 (counterexample): timeline timestamps are not write-once and
replay is not a no-op. A message already in status `delivered` receives the
same `delivered` event again at time 30: the status `UPDATE` still matches
the row (`affectedRows` counts matched rows under mysql2's default
`FOUND_ROWS` flag), so `UPDATE report_time SET delivered_time = NOW()` runs
and the **non-null** stored `delivered_time` 10 is overwritten to 30. -/
theorem C2_writeonce_counterexample :
    updateMessageStatusInDB
        ⟨[⟨1, "t", "9", "delivered", some "w", 0, none⟩],
         [⟨"t", "9", "w", some 0, some 0, some 10, none, none⟩], 2⟩ 1 "delivered" 30
      = .ok ⟨[⟨1, "t", "9", "delivered", some "w", 0, none⟩],
          [⟨"t", "9", "w", some 0, some 0, some 30, none, none⟩], 2⟩
    ∧ (⟨"t", "9", "w", some 0, some 0, some 10, none, none⟩ : ReportRow).delivered_time
        = some 10 := ⟨rfl, rfl⟩

/-- Claim C2 (amended): the timeline update `SET <field> = NOW()` has no
null guard and the status `UPDATE`'s `affectedRows` counts matched rows, so
every valid status update applied to an existing message row that has a
WhatsApp message id and a status with a timestamp column sets that column
of every matching `report_time` row to the current event time — overwriting
any previously stored value. Replaying the same delivery event at a later
time therefore moves the timestamp instead of being a no-op. -/
theorem C2_overwrite_amended (st : Ledger) (mid : Nat) (newStatus : String) (now : Nat)
    (m : MediaRow) (wid : String) (f : TimeField)
    (hv : validMessageStatus.contains newStatus = true)
    (hf : st.messages.find? (fun r => r.id == mid) = some m)
    (hwid : m.whatsapp_message_id = some wid)
    (hfield : statusFieldUpdate newStatus = some f)
    (hrep : (st.reports.any (fun r => r.whatsapp_message_id == wid)) = true) :
    updateMessageStatusInDB st mid newStatus now
      = .ok ⟨st.messages.map (fun r =>
            if r.id == mid then { r with message_status := newStatus } else r),
          st.reports.map (fun r =>
            if r.whatsapp_message_id == wid then r.setField f now else r),
          st.nextId⟩
    ∧ ∀ r ∈ st.reports.map (fun r =>
        if r.whatsapp_message_id == wid then r.setField f now else r),
        r.whatsapp_message_id = wid → r.getField f = some now := by
  have hval : (!validMessageStatus.contains newStatus) = false := by rw [hv]; rfl
  refine ⟨?_, reportRow_update_field st.reports wid f now⟩
  simp only [updateMessageStatusInDB, hval, Bool.false_eq_true, if_false, hf,
    hwid, hfield, hrep, if_true]

/-- Witness for C2 (amended) at a concrete ledger: replaying `delivered`
at time 99 on a message already `delivered` overwrites the stored
`delivered_time` 10. -/
theorem C2_overwrite_amended_witness :
    updateMessageStatusInDB
        ⟨[⟨1, "t", "9", "delivered", some "w", 0, none⟩],
         [⟨"t", "9", "w", some 0, some 0, some 10, none, none⟩], 2⟩ 1 "delivered" 99
      = .ok ⟨[⟨1, "t", "9", "delivered", some "w", 0, none⟩],
          [⟨"t", "9", "w", some 0, some 0, some 99, none, none⟩], 2⟩
    ∧ (⟨"t", "9", "w", some 0, some 0, some 99, none, none⟩ : ReportRow).getField
        .delivered_time = some 99 := by
  have h := C2_overwrite_amended
      ⟨[⟨1, "t", "9", "delivered", some "w", 0, none⟩],
       [⟨"t", "9", "w", some 0, some 0, some 10, none, none⟩], 2⟩ 1 "delivered" 99
      ⟨1, "t", "9", "delivered", some "w", 0, none⟩ "w" .delivered_time
      (by decide) rfl rfl rfl (by decide)
  exact ⟨h.1, h.2 ⟨"t", "9", "w", some 0, some 0, some 99, none, none⟩ (by decide) rfl⟩

/-- Claim C4: with an active subscription, a batch is rejected in full —
state unchanged, so zero sends and zero ledger rows — with one of the two
explicit quota errors, whenever the remaining quota is non-positive or
smaller than the batch size. The quota gate runs before the socket check,
the media processing and any ledger write. -/
theorem C4_quota_rejection (st : Ledger) (iid : String) (messages : List OutMsg)
    (s : Subscription) (sentCount : Int) (sock : Option Sock)
    (mediaStage : Except String (Option MediaPayload)) (sched : Option Nat) (now : Nat)
    (hne : messages ≠ [])
    (hq : s.num_messages - sentCount ≤ 0
      ∨ (messages.length : Int) > s.num_messages - sentCount) :
    (sendMedia st iid messages (some s) sentCount sock mediaStage sched now).1 = st
    ∧ ((sendMedia st iid messages (some s) sentCount sock mediaStage sched now).2
          = .badRequest "Message limit reached. Please recharge your subscription."
      ∨ (sendMedia st iid messages (some s) sentCount sock mediaStage sched now).2
          = .badRequest ("Can only send " ++ toString (s.num_messages - sentCount)
              ++ " more messages with current subscription")) := by
  have hemp : messages.isEmpty = false := by
    cases messages with
    | nil => exact absurd rfl hne
    | cons a t => rfl
  by_cases h0 : s.num_messages - sentCount ≤ 0
  · constructor
    · simp only [sendMedia, hemp, Bool.false_eq_true, if_false, if_pos h0]
    · left
      simp only [sendMedia, hemp, Bool.false_eq_true, if_false, if_pos h0]
  · have h2 : (messages.length : Int) > s.num_messages - sentCount := hq.resolve_left h0
    constructor
    · simp only [sendMedia, hemp, Bool.false_eq_true, if_false, if_neg h0, if_pos h2]
    · right
      simp only [sendMedia, hemp, Bool.false_eq_true, if_false, if_neg h0, if_pos h2]

/-- Witness for C4: a two-message batch against a subscription with one
remaining message is rejected whole with the batch-size quota error, and
the ledger is untouched. -/
theorem C4_quota_rejection_witness :
    (sendMedia ⟨[], [], 1⟩ "t"
        [⟨"111", some "a", none, fun _ => .fatal, fun _ => .fatal⟩,
         ⟨"222", some "b", none, fun _ => .fatal, fun _ => .fatal⟩]
        (some ⟨1⟩) 0 none (.ok none) none 0).1 = ⟨[], [], 1⟩
    ∧ ((sendMedia ⟨[], [], 1⟩ "t"
        [⟨"111", some "a", none, fun _ => .fatal, fun _ => .fatal⟩,
         ⟨"222", some "b", none, fun _ => .fatal, fun _ => .fatal⟩]
        (some ⟨1⟩) 0 none (.ok none) none 0).2
          = .badRequest "Message limit reached. Please recharge your subscription."
      ∨ (sendMedia ⟨[], [], 1⟩ "t"
        [⟨"111", some "a", none, fun _ => .fatal, fun _ => .fatal⟩,
         ⟨"222", some "b", none, fun _ => .fatal, fun _ => .fatal⟩]
        (some ⟨1⟩) 0 none (.ok none) none 0).2
          = .badRequest ("Can only send " ++ toString ((1 : Int) - 0)
              ++ " more messages with current subscription")) :=
  C4_quota_rejection ⟨[], [], 1⟩ "t"
    [⟨"111", some "a", none, fun _ => .fatal, fun _ => .fatal⟩,
     ⟨"222", some "b", none, fun _ => .fatal, fun _ => .fatal⟩]
    ⟨1⟩ 0 none (.ok none) none 0 (by simp) (Or.inr (by decide))

/-- The insertion loop of `logMediaMessageToDB`: one row per phone number,
each carrying the validated status. -/
theorem logMedia_fold_spec (iid : String) (sched : Option Nat) (v : String)
    (wamid : Option String) (now : Nat) :
    ∀ (pns : List String) (acc : Ledger × List Nat),
      ((pns.foldl (fun acc pn =>
          (⟨acc.1.messages ++ [⟨acc.1.nextId, iid, pn, v, wamid, now, sched⟩],
            acc.1.reports, acc.1.nextId + 1⟩, acc.2 ++ [acc.1.nextId])) acc).1.messages.length
        = acc.1.messages.length + pns.length)
      ∧ ∀ r ∈ (pns.foldl (fun acc pn =>
          (⟨acc.1.messages ++ [⟨acc.1.nextId, iid, pn, v, wamid, now, sched⟩],
            acc.1.reports, acc.1.nextId + 1⟩, acc.2 ++ [acc.1.nextId])) acc).1.messages,
          r ∈ acc.1.messages ∨ r.message_status = v := by
  intro pns
  induction pns with
  | nil => exact fun acc => ⟨by simp, fun r hr => Or.inl hr⟩
  | cons pn rest ih =>
      intro acc
      rw [List.foldl_cons]
      rcases ih (⟨acc.1.messages ++ [⟨acc.1.nextId, iid, pn, v, wamid, now, sched⟩],
          acc.1.reports, acc.1.nextId + 1⟩, acc.2 ++ [acc.1.nextId]) with ⟨hlen, hmem⟩
      constructor
      · rw [hlen]
        simp
        omega
      · intro r hr
        rcases hmem r hr with hin | hst
        · rcases List.mem_append.mp hin with h | h
          · exact Or.inl h
          · right
            rcases List.mem_singleton.mp h with rfl
            rfl
        · exact Or.inr hst

/-- Claim C9: a `messageStatus` outside the ENUM is silently coerced to
`'sent'` by `logMediaMessageToDB` rather than rejected: exactly one row per
phone number is still inserted, and every inserted row carries status
`'sent'`. -/
theorem C9_status_coercion (st : Ledger) (iid : String) (pns : List String)
    (sched : Option Nat) (wamid : Option String) (now : Nat) (s : String)
    (hs : validMessageStatus.contains s = false) :
    (logMediaMessageToDB st iid pns sched s wamid now).1.messages.length
        = st.messages.length + pns.length
    ∧ ∀ r ∈ (logMediaMessageToDB st iid pns sched s wamid now).1.messages,
        r ∈ st.messages ∨ r.message_status = "sent" := by
  have hv : (if validMessageStatus.contains s then s else "sent") = "sent" := by
    rw [hs]; rfl
  unfold logMediaMessageToDB
  rw [hv]
  exact logMedia_fold_spec iid sched "sent" wamid now pns (st, [])

/-- Witness for C9: inserting two rows with unknown status `'foo'` records
both as `'sent'`. -/
theorem C9_status_coercion_witness :
    validMessageStatus.contains "foo" = false
    ∧ (logMediaMessageToDB ⟨[], [], 1⟩ "t" ["111", "222"] none "foo" none 5).1.messages.length
        = 0 + 2
    ∧ (⟨1, "t", "111", "sent", none, 5, none⟩ : MediaRow).message_status = "sent" :=
  ⟨rfl,
   (C9_status_coercion ⟨[], [], 1⟩ "t" ["111", "222"] none none 5 "foo" rfl).1,
   ((C9_status_coercion ⟨[], [], 1⟩ "t" ["111", "222"] none none 5 "foo" rfl).2
      ⟨1, "t", "111", "sent", none, 5, none⟩ (by decide)).resolve_left (by simp)⟩

end Messages
